import Mathlib

/-!
Shallow embedding of the streaming chat-completion orchestration subsystem of
arguflow/ai-editor (src/src/actors/completion_websocket.rs) and the collaborator
interfaces it consumes, together with theorems settling the frozen claims about it.

Conventions of the embedding:
* `uuid::Uuid` is modelled as `Nat`.
* timestamps (`chrono::DateTime<Utc>`) are modelled as `Int` seconds.
* JSON values are modelled by an explicit `Json` inductive; serde's derived
  `Serialize` for a plain enum uses the externally tagged representation
  (a one-key object keyed by the variant name), which is transcribed literally.
* panicking operations of the source (`todo!()`, `.unwrap()`, `.expect(..)`,
  out-of-bounds indexing) are modelled by explicit `panicked` outcomes.
* external effects (`ctx.text`, `ctx.pong`, a ConversationStore insert) are
  modelled as an explicit `Action` list; the vocabulary includes the store
  insert so that its absence in the transcribed code is expressible.
-/

namespace ArguflowAiEditor

/-- JSON values, used to model the wire frames produced with serde_json. -/
inductive Json where
  | null : Json
  | bool (b : Bool) : Json
  | num (n : Int) : Json
  | str (s : String) : Json
  | arr (elems : List Json) : Json
  | obj (fields : List (String × Json)) : Json

/-- Modelled from the spec: `models::Message` is referenced by
src/src/actors/completion_websocket.rs but not defined under src/
(src/src/data/models.rs lacks it).  Fields follow spec section 3:
`{id, topic_id, role, content, sequence_number, prompt_tokens?, completion_tokens?}`
(`created_at` is real time and outside the model). -/
structure Message where
  id : Nat
  topic_id : Nat
  content : String
  role : String
  sequence_number : Nat
  prompt_tokens : Option Nat
  completion_tokens : Option Nat
  deriving Repr, DecidableEq

/-- Modelled from the spec: `models::Message::from_details` is not under src/;
its argument order `(content, topic_id, sequence_number, role, prompt_tokens,
completion_tokens)` is taken from its call sites in
src/src/actors/completion_websocket.rs and src/src/handlers/message_handler.rs,
and the fields it populates from spec section 3.  The generated fresh `id` is
modelled as 0. -/
def Message.from_details (content : String) (topic_id : Nat)
    (sequence_number : Nat) (role : String)
    (prompt_tokens completion_tokens : Option Nat) : Message :=
  { id := 0
    topic_id := topic_id
    content := content
    role := role
    sequence_number := sequence_number
    prompt_tokens := prompt_tokens
    completion_tokens := completion_tokens }

/-- The provider wire format: role + content pairs (openai_dive `ChatMessage`,
as used by `CompletionWebSeocket::stuff`). -/
structure ChatMessage where
  role : String
  content : String
  deriving Repr, DecidableEq

/-- Modelled from the spec: the `From<models::Message> for ChatMessage`
conversion used at the top of `stuff` is not under src/; spec section 4.2 step 1
says the history is converted to the provider's role + content pairs,
preserving order. -/
def chatMessageOfMessage (m : Message) : ChatMessage :=
  { role := m.role, content := m.content }

/-- `MessageDTO` of completion_websocket.rs: the deserialization target of an
inbound text frame. -/
structure MessageDTO where
  command : String
  previous_messages : Option (List Message)
  topic_id : Option Nat
  deriving Repr, DecidableEq

/-- `Command` of completion_websocket.rs. -/
inductive Command where
  | ping : Command
  | prompt (history : List Message) : Command
  | regenerateMessage : Command
  | changeTopic (topic_id : Nat) : Command
  | stop : Command
  | invalidMessage (reason : String) : Command
  deriving Repr, DecidableEq

/-- `actix_web_actors::ws::Message` as consumed by the decoder.  A text frame
carries the result of `serde_json::from_str::<MessageDTO>` on its payload
(`none` for a parse failure), since serde_json itself is an external
collaborator. -/
inductive WsMessage where
  | ping (data : String) : WsMessage
  | pong (data : String) : WsMessage
  | text (parsed : Option MessageDTO) : WsMessage
  | binary (data : String) : WsMessage
  | close : WsMessage
  | continuation : WsMessage
  | nop : WsMessage
  deriving Repr, DecidableEq

/-- `impl From<ws::Message> for Command` (completion_websocket.rs lines 48-80),
transcribed arm by arm; the guarded `"prompt"` / `"changeTopic"` arms fall
through to the catch-all `InvalidMessage "Missing properties"` when their
`is_some` guard fails, exactly as in the Rust `match`. -/
def commandOfWsMessage : WsMessage → Command
  | .ping _ => .ping
  | .text none => .invalidMessage "Invalid message"
  | .text (some m) =>
      if m.command = "ping" then .ping
      else if m.command = "prompt" then
        match m.previous_messages with
        | some msgs => .prompt msgs
        | none => .invalidMessage "Missing properties"
      else if m.command = "regenerateMessage" then .regenerateMessage
      else if m.command = "changeTopic" then
        match m.topic_id with
        | some tid => .changeTopic tid
        | none => .invalidMessage "Missing properties"
      else if m.command = "stop" then .stop
      else .invalidMessage "Missing properties"
  | .pong _ => .invalidMessage "Pong not a operation"
  | .binary _ => .invalidMessage "Binary not a valid operation"
  | .close => .invalidMessage "Close not a operation"
  | .continuation => .invalidMessage "Continuation not a operation"
  | .nop => .invalidMessage "Nop not a operation"

/-- `Response` of completion_websocket.rs: the outbound frame enum. -/
inductive Response where
  | messages (messages : List Message) : Response
  | chatMessage (text : String) : Response
  | error (message : String) : Response
  deriving Repr, DecidableEq

/-- serde serialization of a `models::Message` struct: an object with one field
per struct field in declaration order (the `Nat`-modelled uuid appears as a
number; the concrete image of the uuid does not matter to any claim). -/
def serializeMessage (m : Message) : Json :=
  .obj [("id", .num m.id), ("topic_id", .num m.topic_id),
        ("content", .str m.content), ("role", .str m.role),
        ("sequence_number", .num m.sequence_number),
        ("prompt_tokens", match m.prompt_tokens with
          | some n => .num n
          | none => .null),
        ("completion_tokens", match m.completion_tokens with
          | some n => .num n
          | none => .null)]

/-- serde serialization of `Response`: the enum carries no serde attributes, so
the derived `Serialize` uses the default externally tagged representation — a
single-key object keyed by the variant name. -/
def serializeResponse : Response → Json
  | .messages msgs => .obj [("Messages", .arr (msgs.map serializeMessage))]
  | .chatMessage t => .obj [("ChatMessage", .str t)]
  | .error e => .obj [("Error", .str e)]

/-- Modelled from the spec: the error type returned by ConversationStore
operations (`crate::errors` / `message_operator` are not under src/).  The
commented-out code in completion_websocket.rs constructs it as
`DefaultError { message: .. }`; its derived serde serialization is an object
with the single `message` field and no `type` tag. -/
structure DefaultError where
  message : String
  deriving Repr, DecidableEq

/-- serde serialization of `DefaultError`. -/
def serializeDefaultError (e : DefaultError) : Json :=
  .obj [("message", .str e.message)]

/-- Field lookup in a JSON object's field list (first match). -/
def jsonLookup (k : String) : List (String × Json) → Option Json
  | [] => none
  | (k2, v) :: rest => if k2 = k then some v else jsonLookup k rest

/-- Whether a JSON value is a string. -/
def Json.isStr : Json → Bool
  | .str _ => true
  | _ => false

/-- Whether a JSON value is an array. -/
def Json.isArr : Json → Bool
  | .arr _ => true
  | _ => false

/-- The outbound frame shape asserted by the specification (section 6): a JSON
object that is one of `(type = messages, messages : array)`,
`(type = chatMessage, text : string)`, `(type = error, message : string)`.
This follows the spec's words; it is the comparison point for the shape the
code actually produces. -/
def isSpecOutboundForm : Json → Bool
  | .obj fields =>
      match jsonLookup "type" fields with
      | some (.str "messages") =>
          (jsonLookup "messages" fields).elim false Json.isArr
      | some (.str "chatMessage") =>
          (jsonLookup "text" fields).elim false Json.isStr
      | some (.str "error") =>
          (jsonLookup "message" fields).elim false Json.isStr
      | _ => false
  | _ => false

/-- Observable actions of the connection context and of the collaborators: the
vocabulary includes a ConversationStore insert so that the complete absence of
persistence in the transcribed orchestrator is an expressible fact. -/
inductive Action where
  | sendText (frame : Json) : Action
  | sendPong (data : String) : Action
  | insertMessage (message : Message) : Action

/-- Modelled from the spec: `ChatCompletionDTO` of `message_operator` is not
under src/; its two fields are taken from its construction site in
`CompletionWebSeocket::stuff` (completion_websocket.rs lines 133-136). -/
structure ChatCompletionDTO where
  completion_message : Message
  completion_tokens : Nat
  deriving Repr, DecidableEq

/-- An incremental delta of the provider stream (openai_dive), as accessed by
`response.unwrap().choices[0].delta.content` in `stuff`. -/
structure Delta where
  content : Option String
  deriving Repr, DecidableEq

/-- One choice of a streamed chunk (openai_dive). -/
structure Choice where
  delta : Delta
  deriving Repr, DecidableEq

/-- One streamed chunk response of the provider (openai_dive). -/
structure ChatChunk where
  choices : List Choice
  deriving Repr, DecidableEq

/-- Outcome of running `CompletionWebSeocket::stuff`: the actions performed so
far, and either normal completion (carrying the `ChatCompletionDTO` the code
builds and then drops) or a panic from `todo!`-style partial operations
(`unwrap`, `expect`, indexing). -/
inductive StuffResult where
  | panicked (actions : List Action) (msg : String) : StuffResult
  | completed (actions : List Action) (dto : ChatCompletionDTO) : StuffResult

/-- The actions a `StuffResult` performed. -/
def StuffResult.actions : StuffResult → List Action
  | .panicked acts _ => acts
  | .completed acts _ => acts

/-- The token loop of `stuff` (completion_websocket.rs lines 111-122): for each
stream item, `response.unwrap()` panics on a provider error, `choices[0]` panics
on an empty choice list, `delta.content.unwrap()` panics on an absent content;
otherwise the token counter is bumped, the `ChatMessage` response frame is sent,
and the content is appended to the accumulator.  Returns either the final
(accumulator, counter, actions) or the actions done before a panic plus the
panic message. -/
def stuffLoop : List (Except String ChatChunk) → String → Nat → List Action →
    (String × Nat × List Action) ⊕ (List Action × String)
  | [], acc, n, acts => .inl (acc, n, acts)
  | .error _ :: _, _, _, acts =>
      .inr (acts, "called Result::unwrap on an Err value")
  | .ok chunk :: rest, acc, n, acts =>
      match chunk.choices with
      | [] => .inr (acts, "index out of bounds: choices[0]")
      | choice :: _ =>
          match choice.delta.content with
          | none => .inr (acts, "called Option::unwrap on a None value")
          | some chat_content =>
              stuffLoop rest (acc ++ chat_content) (n + 1)
                (acts ++ [.sendText (serializeResponse (.chatMessage chat_content))])

/-- `CompletionWebSeocket::stuff` (completion_websocket.rs lines 84-138).
Inputs model the environment: `api_key` is `std::env::var("OPEN_AI_API_KEY")`
(`expect` panics when absent), `create_stream` is the provider's answer to
`client.chat().create_stream(parameters).await` (`unwrap` panics on `Err`),
carrying the stream's items when it succeeds.  After the loop the code indexes
`previous_messages[0]` (a panic on an empty history), builds the assistant
`Message` via `from_details` with sequence number `previous_messages.len() + 1`
and the token count, wraps it in a `ChatCompletionDTO` — and does nothing with
it: no `Action.insertMessage` is ever performed. -/
def stuff (api_key : Option String)
    (create_stream : Except String (List (Except String ChatChunk)))
    (previous_messages : List Message) : StuffResult :=
  let _open_ai_messages := previous_messages.map chatMessageOfMessage
  match api_key with
  | none => .panicked [] "OPEN_AI_API_KEY must be set"
  | some _ =>
    match create_stream with
    | .error _ => .panicked [] "called Result::unwrap on an Err value"
    | .ok events =>
      match stuffLoop events "" 0 [] with
      | .inr (acts, msg) => .panicked acts msg
      | .inl (response_content, completion_tokens, acts) =>
        match previous_messages with
        | [] => .panicked acts "index out of bounds: previous_messages[0]"
        | m0 :: _ =>
          .completed acts
            { completion_message :=
                Message.from_details response_content m0.topic_id
                  (previous_messages.length + 1) "assistant"
                  (some 0) (some completion_tokens)
              completion_tokens := completion_tokens }

/-- `CompletionWebSeocket` (the actor struct, completion_websocket.rs lines
39-46); the connection pool is modelled through `Env`, the stream of the spawn
handle as an optional numeric id. -/
structure CompletionWebSeocket where
  user_id : Nat
  topic_id : Option Nat
  last_pong : Int
  spawn_handle : Option Nat
  deriving Repr, DecidableEq

/-- The collaborators a handler invocation consults.  `owns` is
`user_owns_topic_query`, `get_messages` is `get_messages_for_topic_query`
(Modelled from the spec section 6, their definitions in
`operators::message_operator` are not under src/:
`user_owns_topic(user_id, topic_id) -> bool` and
`get_messages(topic_id) -> ordered Message[] | Error`); `now` is
`chrono::Utc::now()` at the handling instant and `handle_id` the spawn handle
`ctx.spawn` returns. -/
structure Env where
  owns : Nat → Nat → Bool
  get_messages : Nat → Except DefaultError (List Message)
  now : Int
  handle_id : Nat

/-- Outcome of one `StreamHandler::handle` invocation: the updated actor state,
the actions performed, and the history handed to a spawned `stuff` future if
one was spawned; or a panic (from the `todo!()` arms) with the actions done
before it. -/
inductive HandleOutcome where
  | ok (state : CompletionWebSeocket) (actions : List Action)
      (spawned : Option (List Message)) : HandleOutcome
  | panicked (state : CompletionWebSeocket) (actions : List Action)
      (msg : String) : HandleOutcome

/-- The actor state after the invocation. -/
def HandleOutcome.state : HandleOutcome → CompletionWebSeocket
  | .ok s _ _ => s
  | .panicked s _ _ => s

/-- The actions the invocation performed. -/
def HandleOutcome.actions : HandleOutcome → List Action
  | .ok _ acts _ => acts
  | .panicked _ acts _ => acts

/-- Whether the invocation panicked. -/
def HandleOutcome.isPanic : HandleOutcome → Bool
  | .ok _ _ _ => false
  | .panicked _ _ _ => true

/-- The command an incoming `Result<ws::Message, ws::ProtocolError>` is decoded
to (completion_websocket.rs lines 159-162): a protocol error becomes
`InvalidMessage "Invalid message"`. -/
def commandOfIncoming : Except Unit WsMessage → Command
  | .ok m => commandOfWsMessage m
  | .error _ => .invalidMessage "Invalid message"

/-- `StreamHandler::handle` (completion_websocket.rs lines 158-204), transcribed
arm by arm.  `Ping` sets `last_pong` to now and answers with a transport pong;
`Prompt` spawns the `stuff` future and records the spawn handle; the
`RegenerateMessage` and `Stop` arms are `todo!()` and panic; `ChangeTopic`
consults the ownership query and either sends one `Error` response, or fetches
the topic's messages and sends them (sending the raw serialized store error on
a fetch failure); `InvalidMessage` sends one `Error` response.  No arm assigns
`self.topic_id`. -/
def handle (env : Env) (s : CompletionWebSeocket)
    (msg : Except Unit WsMessage) : HandleOutcome :=
  match commandOfIncoming msg with
  | .ping =>
      .ok { s with last_pong := env.now } [.sendPong "Pong"] none
  | .prompt messages =>
      .ok { s with spawn_handle := some env.handle_id } [] (some messages)
  | .regenerateMessage =>
      .panicked s [] "not yet implemented"
  | .changeTopic topic_id =>
      if ¬ env.owns s.user_id topic_id then
        .ok s [.sendText (serializeResponse (.error "User does not own topic"))] none
      else
        match env.get_messages topic_id with
        | .ok messages =>
            .ok s [.sendText (serializeResponse (.messages messages))] none
        | .error err =>
            .ok s [.sendText (serializeDefaultError err)] none
  | .stop =>
      .panicked s [] "not yet implemented"
  | .invalidMessage e =>
      .ok s [.sendText (serializeResponse (.error e))] none

/-- The per-connection liveness watchdog state: `last_pong` as read and written
by the actor, and whether `ctx.stop()` has taken effect. -/
structure LiveState where
  last_pong : Int
  stopped : Bool
  deriving Repr, DecidableEq

/-- Events that touch the liveness state: an interval tick of the watchdog
registered in `Actor::started` (completion_websocket.rs lines 146-152), a
processed `Command::Ping` (lines 164-168), or any other processed command
(none of which reads or writes `last_pong` or stops the context). -/
inductive LiveEvent where
  | tick (now : Int) : LiveEvent
  | ping (now : Int) : LiveEvent
  | other : LiveEvent
  deriving Repr, DecidableEq

/-- One liveness transition: once the context is stopped the actor processes
nothing further; a tick stops the context when more than 10 seconds have
passed since `last_pong`; a ping sets `last_pong` to now. -/
def liveStep (s : LiveState) (e : LiveEvent) : LiveState :=
  if s.stopped then s
  else
    match e with
    | .tick now => if now - s.last_pong > 10 then { s with stopped := true } else s
    | .ping now => { s with last_pong := now }
    | .other => s

/-- Running the liveness watchdog over a sequence of events. -/
def runLive (s : LiveState) (events : List LiveEvent) : LiveState :=
  events.foldl liveStep s

/-- How many events of the trace actually close the connection (transition
`stopped` from `false` to `true`). -/
def closeCount (s : LiveState) : List LiveEvent → Nat
  | [] => 0
  | e :: es =>
      let s2 := liveStep s e
      (if s.stopped = false ∧ s2.stopped = true then 1 else 0) + closeCount s2 es

/-- A normally-formed provider stream item carrying one token: an `Ok` chunk
with one choice whose delta has content. -/
def tokenChunk (s : String) : Except String ChatChunk :=
  .ok { choices := [{ delta := { content := some s } }] }

/-- The outbound action the token loop performs for one received token: send
the serialized `Response::ChatMessage` frame. -/
def tokenFrame (s : String) : Action :=
  .sendText (serializeResponse (.chatMessage s))

/-- The messages an action list persists through ConversationStore. -/
def persisted (acts : List Action) : List Message :=
  acts.filterMap fun a =>
    match a with
    | .insertMessage m => some m
    | _ => none

/-- Whether an action sends a serde-serialized `Response::Error` frame. -/
def isErrorFrame : Action → Bool
  | .sendText (.obj [("Error", _v)]) => true
  | _ => false

/-- Whether a JSON value is the serde externally tagged serialization of some
`Response`: a one-key object keyed by the variant name. -/
def isSerdeTaggedResponse : Json → Bool
  | .obj [("Messages", .arr _elems)] => true
  | .obj [("ChatMessage", .str _t)] => true
  | .obj [("Error", .str _e)] => true
  | _ => false

/-- The action list inside either outcome of the token loop. -/
def actionsOfLoop : (String × Nat × List Action) ⊕ (List Action × String) → List Action
  | .inl (_, _, acts) => acts
  | .inr (acts, _) => acts

/-- A concrete user message, used by the concrete counterexamples and
witnesses. -/
def sampleMessage : Message :=
  { id := 1, topic_id := 7, content := "Explain X", role := "user",
    sequence_number := 1, prompt_tokens := none, completion_tokens := none }

/-- A concrete environment in which the ownership check always succeeds and
every fetch returns the empty message list. -/
def envAllOwned : Env :=
  { owns := fun _ _ => true, get_messages := fun _ => .ok [], now := 42,
    handle_id := 9 }

/-- A concrete environment in which the ownership check always fails. -/
def envNoneOwned : Env :=
  { owns := fun _ _ => false, get_messages := fun _ => .ok [], now := 42,
    handle_id := 9 }

/-- A concrete actor state whose current topic is 5. -/
def sampleState : CompletionWebSeocket :=
  { user_id := 1, topic_id := some 5, last_pong := 0, spawn_handle := none }

/-- On a stream of well-formed token chunks the token loop completes, returning
the left-fold of the tokens onto the accumulator, the bumped counter, and one
`ChatMessage` frame per token appended in arrival order. -/
theorem stuffLoop_tokens (cs : List String) :
    ∀ (acc : String) (n : Nat) (acts : List Action),
      stuffLoop (cs.map tokenChunk) acc n acts =
        .inl (cs.foldl (fun a c => a ++ c) acc, n + cs.length,
          acts ++ cs.map tokenFrame) := by
  induction cs with
  | nil => intro acc n acts; simp [stuffLoop]
  | cons c cs ih =>
      intro acc n acts
      simp only [List.map_cons, List.foldl_cons, stuffLoop, tokenChunk]
      rw [ih]
      simp [tokenFrame, List.append_assoc]
      omega

/-- When the provider stream errs after a prefix of well-formed tokens, the
token loop panics on `unwrap`, having sent exactly the frames for the prefix. -/
theorem stuffLoop_err (cs : List String) (e : String)
    (rest : List (Except String ChatChunk)) :
    ∀ (acc : String) (n : Nat) (acts : List Action),
      stuffLoop (cs.map tokenChunk ++ .error e :: rest) acc n acts =
        .inr (acts ++ cs.map tokenFrame, "called Result::unwrap on an Err value") := by
  induction cs with
  | nil => intro acc n acts; simp [stuffLoop]
  | cons c cs ih =>
      intro acc n acts
      simp only [List.map_cons, List.cons_append, stuffLoop, tokenChunk,
        List.append_eq]
      rw [ih]
      simp [tokenFrame, List.append_assoc]

/-- Token frames persist nothing. -/
theorem persisted_tokenFrames (cs : List String) :
    persisted (cs.map tokenFrame) = [] := by
  induction cs with
  | nil => rfl
  | cons c cs ih => simp [persisted, tokenFrame]

/-- No token frame is an error frame. -/
theorem tokenFrames_no_errorFrame (cs : List String) :
    (cs.map tokenFrame).filter isErrorFrame = [] := by
  induction cs with
  | nil => rfl
  | cons c cs ih => simp [tokenFrame, List.filter_cons, isErrorFrame,
      serializeResponse]

/-- Claim C1: for a Prompt with non-empty history whose provider stream is
exhausted normally, the orchestrator builds the assistant Message with content
equal to the in-order concatenation of the emitted `chatMessage` frames,
sequence number = history length + 1 and `completion_tokens` = the frame count
— but, contrary to the claim, it performs no ConversationStore persistence at
all: the `ChatCompletionDTO` is built and dropped, and the action trace contains
no insert. -/
theorem c1_assistant_message_built_but_never_persisted :
    ∀ (k : String) (cs : List String) (m0 : Message) (rest : List Message),
      stuff (some k) (.ok (cs.map tokenChunk)) (m0 :: rest) =
        .completed (cs.map tokenFrame)
          { completion_message :=
              Message.from_details (cs.foldl (fun a c => a ++ c) "") m0.topic_id
                ((m0 :: rest).length + 1) "assistant" (some 0) (some cs.length)
            completion_tokens := cs.length }
      ∧ persisted ((stuff (some k) (.ok (cs.map tokenChunk)) (m0 :: rest)).actions) = [] := by
  intro k cs m0 rest
  have h : stuff (some k) (.ok (cs.map tokenChunk)) (m0 :: rest) =
      .completed (cs.map tokenFrame)
        { completion_message :=
            Message.from_details (cs.foldl (fun a c => a ++ c) "") m0.topic_id
              ((m0 :: rest).length + 1) "assistant" (some 0) (some cs.length)
          completion_tokens := cs.length } := by
    simp [stuff, stuffLoop_tokens]
  refine ⟨h, ?_⟩
  rw [h]
  exact persisted_tokenFrames cs

/-- Claim C5: contrary to the claim, the `Stop` arm of the handler is
`todo!()` — handling a `stop` frame panics in every state, instead of
cancelling an active generation or being a no-op. -/
theorem c5_stop_arm_panics :
    ∀ (env : Env) (s : CompletionWebSeocket),
      handle env s (.ok (.text (some ⟨"stop", none, none⟩))) =
        .panicked s [] "not yet implemented" := by
  intro env s
  rfl

/-- Claim C6: contrary to the claim that command handling never panics, the
`RegenerateMessage` arm is `todo!()` and panics on any decodable
`regenerateMessage` frame, and the orchestrator panics (rather than emitting a
frame) when the first provider stream item is an error. -/
theorem c6_handling_panics :
    (∀ (env : Env) (s : CompletionWebSeocket),
      handle env s (.ok (.text (some ⟨"regenerateMessage", none, none⟩))) =
        .panicked s [] "not yet implemented")
    ∧ (∀ (k e : String) (m0 : Message) (rest : List Message),
      stuff (some k) (.ok [.error e]) (m0 :: rest) =
        .panicked [] "called Result::unwrap on an Err value") := by
  exact ⟨fun env s => rfl, fun k e m0 rest => rfl⟩

/-- Claim C7: contrary to the claim, a provider error mid-stream makes the
token loop panic on `unwrap`: no error response frame is ever emitted (the
frames sent are exactly the `chatMessage` frames of the tokens before the
error, none of which is an error frame), and nothing is persisted. -/
theorem c7_provider_error_panics_without_error_frame :
    ∀ (k e : String) (cs : List String) (rest : List (Except String ChatChunk))
      (history : List Message),
      stuff (some k) (.ok (cs.map tokenChunk ++ .error e :: rest)) history =
        .panicked (cs.map tokenFrame) "called Result::unwrap on an Err value"
      ∧ (cs.map tokenFrame).filter isErrorFrame = []
      ∧ persisted (cs.map tokenFrame) = [] := by
  intro k e cs rest history
  refine ⟨?_, tokenFrames_no_errorFrame cs, persisted_tokenFrames cs⟩
  simp [stuff, stuffLoop_err]

/-- Claim C9: the decoder maps a text frame with `command = "prompt"` and a
present-but-empty `previous_messages` array to `Prompt []` (it checks only
presence); the orchestrator indexes `previous_messages[0]` unconditionally, so
on the empty history the index access is out of bounds (a panic), while on any
non-empty history with a normally exhausted stream it completes in bounds. -/
theorem c9_prompt_empty_history_out_of_bounds :
    commandOfWsMessage (.text (some ⟨"prompt", some [], none⟩)) = .prompt []
    ∧ (∀ k : String, stuff (some k) (.ok []) [] =
        .panicked [] "index out of bounds: previous_messages[0]")
    ∧ (∀ (k : String) (m0 : Message) (rest : List Message),
        stuff (some k) (.ok []) (m0 :: rest) =
          .completed []
            { completion_message :=
                Message.from_details "" m0.topic_id ((m0 :: rest).length + 1)
                  "assistant" (some 0) (some 0)
              completion_tokens := 0 }) := by
  exact ⟨rfl, fun k => rfl, fun k m0 rest => rfl⟩

/-- A stopped liveness state absorbs every event. -/
theorem liveStep_of_stopped {s : LiveState} (e : LiveEvent) (h : s.stopped = true) :
    liveStep s e = s := by
  simp [liveStep, h]

/-- A stopped liveness state absorbs every trace. -/
theorem runLive_of_stopped {s : LiveState} (es : List LiveEvent) (h : s.stopped = true) :
    runLive s es = s := by
  induction es with
  | nil => rfl
  | cons e es ih =>
      show runLive (liveStep s e) es = s
      rw [liveStep_of_stopped e h]
      exact ih

/-- A stopped liveness state is never closed again. -/
theorem closeCount_of_stopped {s : LiveState} (es : List LiveEvent)
    (h : s.stopped = true) : closeCount s es = 0 := by
  induction es with
  | nil => rfl
  | cons e es ih =>
      show (if s.stopped = false ∧ (liveStep s e).stopped = true then 1 else 0) +
        closeCount (liveStep s e) es = 0
      rw [liveStep_of_stopped e h]
      simp [h, ih]

/-- Along any event trace the connection closes at most once. -/
theorem closeCount_le_one (es : List LiveEvent) :
    ∀ s : LiveState, closeCount s es ≤ 1 := by
  induction es with
  | nil => intro s; simp [closeCount]
  | cons e es ih =>
      intro s
      show (if s.stopped = false ∧ (liveStep s e).stopped = true then 1 else 0) +
        closeCount (liveStep s e) es ≤ 1
      by_cases hc : s.stopped = false ∧ (liveStep s e).stopped = true
      · rw [if_pos hc, closeCount_of_stopped es hc.2]
      · rw [if_neg hc]
        simpa using ih (liveStep s e)

/-- A watchdog tick firing more than 10 seconds after the last acknowledgment
closes a not-yet-stopped connection, whatever comes afterwards. -/
theorem runLive_tick_closes (s : LiveState) (pre : List LiveEvent) (t : Int)
    (post : List LiveEvent) (h1 : (runLive s pre).stopped = false)
    (h2 : t - (runLive s pre).last_pong > 10) :
    (runLive s (pre ++ .tick t :: post)).stopped = true := by
  have happ : runLive s (pre ++ .tick t :: post) =
      runLive (liveStep (runLive s pre) (.tick t)) post := by
    simp [runLive, List.foldl_append, List.foldl_cons]
  have hstep : (liveStep (runLive s pre) (.tick t)).stopped = true := by
    simp [liveStep, h1, h2]
  rw [happ, runLive_of_stopped post hstep]
  exact hstep

/-- Claim C3: along any trace of watchdog ticks and processed commands the
connection closes at most once; a tick firing when more than 10 seconds have
elapsed since the last acknowledgment closes a live connection; and a received
Ping resets the deadline by setting the last-acknowledgment timestamp to now
(both in the liveness model and in the transcribed handler arm). -/
theorem c3_liveness_timeout_closes_once :
    (∀ (s : LiveState) (es : List LiveEvent), closeCount s es ≤ 1)
    ∧ (∀ (s : LiveState) (pre : List LiveEvent) (t : Int) (post : List LiveEvent),
        (runLive s pre).stopped = false → t - (runLive s pre).last_pong > 10 →
        (runLive s (pre ++ .tick t :: post)).stopped = true)
    ∧ (∀ (s : LiveState) (t : Int), s.stopped = false →
        (liveStep s (.ping t)).last_pong = t)
    ∧ (∀ (env : Env) (s : CompletionWebSeocket) (b : String),
        (handle env s (.ok (.ping b))).state.last_pong = env.now) := by
  refine ⟨fun s es => closeCount_le_one es s, runLive_tick_closes, ?_, ?_⟩
  · intro s t h
    simp [liveStep, h]
  · intro env s b
    rfl

/-- Witness for C3 on a concrete run: from timestamp 0, a tick at 11 seconds
closes the connection, close happens at most once, and a ping at 3 resets the
acknowledgment timestamp. -/
theorem c3_witness :
    closeCount ⟨0, false⟩ [.tick 11] ≤ 1
    ∧ (runLive ⟨0, false⟩ ([] ++ .tick 11 :: [])).stopped = true
    ∧ (liveStep ⟨0, false⟩ (.ping 3)).last_pong = 3
    ∧ (handle envAllOwned sampleState (.ok (.ping "p"))).state.last_pong = envAllOwned.now := by
  exact ⟨c3_liveness_timeout_closes_once.1 ⟨0, false⟩ [.tick 11],
    c3_liveness_timeout_closes_once.2.1 ⟨0, false⟩ [] 11 [] (by decide) (by decide),
    c3_liveness_timeout_closes_once.2.2.1 ⟨0, false⟩ 3 (by decide),
    c3_liveness_timeout_closes_once.2.2.2 envAllOwned sampleState "p"⟩

/-- Claim C4 counterexample: the decoder does not require `previous_messages`
to be non-empty — the text frame `{command: "prompt", previous_messages: []}`
decodes to `Prompt` with empty history, refuting "decodes to Prompt only when
previous_messages is present and non-empty". -/
theorem c4_counterexample :
    ¬ ∀ (dto : MessageDTO) (msgs : List Message),
        commandOfWsMessage (.text (some dto)) = .prompt msgs → msgs ≠ [] := by
  intro hclaim
  exact hclaim ⟨"prompt", some [], none⟩ [] rfl rfl

/-- Claim C4 (amended): every inbound frame is classified into exactly one
Command by the total decoding function; a text frame decodes to `Prompt msgs`
exactly when its command is "prompt" and `previous_messages` is present with
value `msgs` (possibly empty); malformed JSON and unrecognized command names
decode to `InvalidMessage`; and handling an `InvalidMessage` emits one error
frame, leaves the state unchanged and does not panic, so the connection
survives invalid frames. -/
theorem c4_invalid_frames_decode_and_survive :
    (∀ (dto : MessageDTO) (msgs : List Message),
        commandOfWsMessage (.text (some dto)) = .prompt msgs ↔
          dto.command = "prompt" ∧ dto.previous_messages = some msgs)
    ∧ commandOfIncoming (.error ()) = .invalidMessage "Invalid message"
    ∧ commandOfWsMessage (.text none) = .invalidMessage "Invalid message"
    ∧ (∀ dto : MessageDTO,
        dto.command ∉ (["ping", "prompt", "regenerateMessage", "changeTopic",
          "stop"] : List String) →
        commandOfWsMessage (.text (some dto)) = .invalidMessage "Missing properties")
    ∧ (∀ (env : Env) (s : CompletionWebSeocket) (m : Except Unit WsMessage)
        (r : String), commandOfIncoming m = .invalidMessage r →
        handle env s m = .ok s [.sendText (serializeResponse (.error r))] none) := by
  refine ⟨?_, rfl, rfl, ?_, ?_⟩
  · intro dto msgs
    obtain ⟨cmd, prev, tid⟩ := dto
    constructor
    · intro h
      simp only [commandOfWsMessage] at h
      rcases prev with _ | l <;> rcases tid with _ | t <;>
        split_ifs at h <;> simp_all
    · rintro ⟨h1, h2⟩
      simp only at h1 h2
      simp only [commandOfWsMessage, h1, h2]
      rw [if_neg (by decide)]
      simp
  · intro dto h
    simp only [List.mem_cons, List.not_mem_nil, or_false, not_or] at h
    obtain ⟨hping, hprompt, hregen, hchange, hstop⟩ := h
    simp only [commandOfWsMessage]
    rw [if_neg hping, if_neg hprompt, if_neg hregen, if_neg hchange, if_neg hstop]
  · intro env s m r h
    simp [handle, h]

/-- Witness for C4 at concrete frames: a prompt with a one-message history
decodes to `Prompt`, an unknown command decodes to `InvalidMessage`, and a
binary frame is answered with a single error frame without closing or
panicking. -/
theorem c4_witness :
    commandOfWsMessage (.text (some ⟨"prompt", some [sampleMessage], none⟩)) =
      .prompt [sampleMessage]
    ∧ commandOfWsMessage (.text (some ⟨"foo", none, none⟩)) =
      .invalidMessage "Missing properties"
    ∧ handle envAllOwned sampleState (.ok (.binary "b")) =
      .ok sampleState
        [.sendText (serializeResponse (.error "Binary not a valid operation"))] none := by
  exact ⟨(c4_invalid_frames_decode_and_survive.1 _ _).mpr ⟨rfl, rfl⟩,
    c4_invalid_frames_decode_and_survive.2.2.2.1 ⟨"foo", none, none⟩ (by decide),
    c4_invalid_frames_decode_and_survive.2.2.2.2 envAllOwned sampleState _ _ rfl⟩

/-- Claim C10: a transport-level Pong frame decodes to `InvalidMessage` and its
handling emits an outbound error frame without touching `last_pong`; across all
inbound frames, `last_pong` is set (to now) exactly by the `Ping` command, and a
frame decodes to `Ping` exactly when it is a transport Ping or a JSON text
frame with command "ping". -/
theorem c10_pong_never_acknowledges :
    (∀ b : String, commandOfWsMessage (.pong b) =
      .invalidMessage "Pong not a operation")
    ∧ (∀ (env : Env) (s : CompletionWebSeocket) (b : String),
        handle env s (.ok (.pong b)) =
          .ok s [.sendText (serializeResponse (.error "Pong not a operation"))] none)
    ∧ (∀ (env : Env) (s : CompletionWebSeocket) (m : Except Unit WsMessage),
        (commandOfIncoming m = .ping ∧ (handle env s m).state.last_pong = env.now)
        ∨ (commandOfIncoming m ≠ .ping ∧
            (handle env s m).state.last_pong = s.last_pong))
    ∧ (∀ m : WsMessage, commandOfWsMessage m = .ping ↔
        ((∃ b, m = .ping b)
          ∨ (∃ dto, m = .text (some dto) ∧ dto.command = "ping"))) := by
  refine ⟨fun b => rfl, fun env s b => rfl, ?_, ?_⟩
  · intro env s m
    rcases h : commandOfIncoming m with _ | hist | _ | tid | _ | r
    · exact Or.inl ⟨rfl, by simp [handle, h, HandleOutcome.state]⟩
    · exact Or.inr ⟨by simp [h], by simp [handle, h, HandleOutcome.state]⟩
    · exact Or.inr ⟨by simp [h], by simp [handle, h, HandleOutcome.state]⟩
    · refine Or.inr ⟨by simp [h], ?_⟩
      simp only [handle, h]
      by_cases ho : env.owns s.user_id tid
      · cases hg : env.get_messages tid with
        | error err => simp [ho, hg, HandleOutcome.state]
        | ok msgs => simp [ho, hg, HandleOutcome.state]
      · simp [ho, HandleOutcome.state]
    · exact Or.inr ⟨by simp [h], by simp [handle, h, HandleOutcome.state]⟩
    · exact Or.inr ⟨by simp [h], by simp [handle, h, HandleOutcome.state]⟩
  · intro m
    cases m with
    | ping b => simp [commandOfWsMessage]
    | pong b => simp [commandOfWsMessage]
    | binary b => simp [commandOfWsMessage]
    | close => simp [commandOfWsMessage]
    | continuation => simp [commandOfWsMessage]
    | nop => simp [commandOfWsMessage]
    | text parsed =>
        cases parsed with
        | none => simp [commandOfWsMessage]
        | some dto =>
            obtain ⟨cmd, prev, tid⟩ := dto
            by_cases hc : cmd = "ping"
            · simp [commandOfWsMessage, hc]
            · constructor
              · intro h
                exfalso
                simp only [commandOfWsMessage] at h
                rcases prev with _ | l <;> rcases tid with _ | t <;>
                  split_ifs at h <;> simp_all
              · rintro (⟨b, hb⟩ | ⟨dto2, hdto, hcmd⟩)
                · exact absurd hb (by simp)
                · obtain rfl : (⟨cmd, prev, tid⟩ : MessageDTO) = dto2 := by
                    simpa using hdto
                  exact absurd hcmd hc

/-- Witness for C10 at concrete frames: a transport pong leaves `last_pong`
untouched, while a transport ping decodes to `Ping`. -/
theorem c10_witness :
    (handle envAllOwned sampleState (.ok (.pong "x"))).state.last_pong =
      sampleState.last_pong
    ∧ commandOfWsMessage (.ping "x") = .ping := by
  constructor
  · rcases c10_pong_never_acknowledges.2.2.1 envAllOwned sampleState
      (.ok (.pong "x")) with ⟨hp, _⟩ | ⟨_, hlp⟩
    · exact absurd hp (by decide)
    · exact hlp
  · exact (c10_pong_never_acknowledges.2.2.2 (.ping "x")).mpr (Or.inl ⟨"x", rfl⟩)

/-- Claim C2 counterexample: in a state whose current topic is 5, under an
environment where the user owns every topic, handling `ChangeTopic 7` leaves
`topic_id` at 5 — the handler never assigns `self.topic_id`, refuting
"current_topic_id is replaced by topic_id". -/
theorem c2_counterexample :
    (handle envAllOwned sampleState
      (.ok (.text (some ⟨"changeTopic", none, some 7⟩)))).state.topic_id ≠ some 7 := by
  decide

/-- Claim C2 (amended): on a `ChangeTopic` whose ownership check fails, exactly
one error frame is emitted and the whole state — in particular
`current_topic_id` — is unchanged; on success the topic's message list is
fetched and returned (the raw serialized store error on a fetch failure), but
`current_topic_id` is also left unchanged, since no arm assigns it. -/
theorem c2_change_topic_never_updates_topic :
    ∀ (env : Env) (s : CompletionWebSeocket) (tid : Nat) (dto : MessageDTO),
      dto.command = "changeTopic" → dto.topic_id = some tid →
      (env.owns s.user_id tid = false →
        handle env s (.ok (.text (some dto))) =
          .ok s [.sendText (serializeResponse (.error "User does not own topic"))] none)
      ∧ (∀ msgs, env.owns s.user_id tid = true → env.get_messages tid = .ok msgs →
        handle env s (.ok (.text (some dto))) =
          .ok s [.sendText (serializeResponse (.messages msgs))] none)
      ∧ (∀ err, env.owns s.user_id tid = true → env.get_messages tid = .error err →
        handle env s (.ok (.text (some dto))) =
          .ok s [.sendText (serializeDefaultError err)] none) := by
  intro env s tid dto h1 h2
  have hcmd : commandOfIncoming (.ok (.text (some dto))) = .changeTopic tid := by
    simp [commandOfIncoming, commandOfWsMessage, h1, h2]
  refine ⟨?_, ?_, ?_⟩
  · intro ho
    simp [handle, hcmd, ho]
  · intro msgs ho hg
    simp [handle, hcmd, ho, hg]
  · intro err ho hg
    simp [handle, hcmd, ho, hg]

/-- Witness for C2 at concrete inputs: the not-owned case answers with the
single authorization-error frame and an unchanged state; the owned case
answers with the fetched message list and the same unchanged state. -/
theorem c2_witness :
    handle envNoneOwned sampleState (.ok (.text (some ⟨"changeTopic", none, some 7⟩))) =
      .ok sampleState
        [.sendText (serializeResponse (.error "User does not own topic"))] none
    ∧ handle envAllOwned sampleState (.ok (.text (some ⟨"changeTopic", none, some 7⟩))) =
      .ok sampleState [.sendText (serializeResponse (.messages []))] none := by
  exact ⟨(c2_change_topic_never_updates_topic envNoneOwned sampleState 7
      ⟨"changeTopic", none, some 7⟩ rfl rfl).1 rfl,
    (c2_change_topic_never_updates_topic envAllOwned sampleState 7
      ⟨"changeTopic", none, some 7⟩ rfl rfl).2.1 [] rfl rfl⟩

/-- Every `sendText` the token loop adds beyond the initial actions is a serde
serialization of a `Response::ChatMessage`. -/
theorem stuffLoop_sendText (events : List (Except String ChatChunk)) :
    ∀ (acc : String) (n : Nat) (acts : List Action) (j : Json),
      Action.sendText j ∈ actionsOfLoop (stuffLoop events acc n acts) →
      Action.sendText j ∈ acts ∨ ∃ t, j = serializeResponse (.chatMessage t) := by
  induction events with
  | nil =>
      intro acc n acts j hj
      exact Or.inl (by simpa [stuffLoop, actionsOfLoop] using hj)
  | cons ev rest ih =>
      intro acc n acts j hj
      cases ev with
      | error e =>
          exact Or.inl (by simpa [stuffLoop, actionsOfLoop] using hj)
      | ok chunk =>
          obtain ⟨choices⟩ := chunk
          cases choices with
          | nil => exact Or.inl (by simpa [stuffLoop, actionsOfLoop] using hj)
          | cons choice tail =>
              obtain ⟨delta⟩ := choice
              obtain ⟨content⟩ := delta
              cases content with
              | none => exact Or.inl (by simpa [stuffLoop, actionsOfLoop] using hj)
              | some t =>
                  simp only [stuffLoop] at hj
                  rcases ih _ _ _ _ hj with hin | hex
                  · rcases List.mem_append.mp hin with hl | hr
                    · exact Or.inl hl
                    · exact Or.inr ⟨t, by simpa using hr⟩
                  · exact Or.inr hex

/-- The actions of `stuff` on a created stream are exactly the actions of the
token loop, whatever the outcome. -/
theorem stuff_actions (k : String) (events : List (Except String ChatChunk))
    (hist : List Message) :
    (stuff (some k) (.ok events) hist).actions =
      actionsOfLoop (stuffLoop events "" 0 []) := by
  simp only [stuff]
  cases h : stuffLoop events "" 0 [] with
  | inl p =>
      obtain ⟨rc, ct, acts⟩ := p
      cases hist <;> simp [StuffResult.actions, actionsOfLoop]
  | inr p =>
      obtain ⟨acts, msg⟩ := p
      simp [StuffResult.actions, actionsOfLoop]

/-- Claim C8 counterexample: the frame actually emitted for the token "Sure"
is the serde externally tagged object keyed "ChatMessage", which is not of the
claimed form (no "type" member) — refuting the claimed outbound frame shapes. -/
theorem c8_counterexample :
    (stuff (some "k") (.ok [tokenChunk "Sure"]) [sampleMessage]).actions =
      [.sendText (serializeResponse (.chatMessage "Sure"))]
    ∧ isSpecOutboundForm (serializeResponse (.chatMessage "Sure")) = false := by
  exact ⟨rfl, rfl⟩

/-- Claim C8 (amended): every serialization of a `Response` is the serde
externally tagged one-key object keyed by the variant name (`Messages`,
`ChatMessage` or `Error`) — never a `type`-tagged object; every text frame the
handler emits is such a `Response` serialization except on the ChangeTopic
message-fetch failure path, where the raw store error serialization is sent;
and every text frame the orchestrator emits is a `ChatMessage` serialization. -/
theorem c8_outbound_frames_serde_tagged :
    (∀ r : Response, isSerdeTaggedResponse (serializeResponse r) = true)
    ∧ (∀ (env : Env) (s : CompletionWebSeocket) (m : Except Unit WsMessage)
        (j : Json), Action.sendText j ∈ (handle env s m).actions →
        (∃ r, j = serializeResponse r) ∨ (∃ e, j = serializeDefaultError e))
    ∧ (∀ (k : Option String)
        (cstream : Except String (List (Except String ChatChunk)))
        (hist : List Message) (j : Json),
        Action.sendText j ∈ (stuff k cstream hist).actions →
        ∃ t, j = serializeResponse (.chatMessage t)) := by
  refine ⟨?_, ?_, ?_⟩
  · intro r
    cases r <;> rfl
  · intro env s m j hj
    rcases h : commandOfIncoming m with _ | hist | _ | tid | _ | r
    · simp [handle, h, HandleOutcome.actions] at hj
    · simp [handle, h, HandleOutcome.actions] at hj
    · simp [handle, h, HandleOutcome.actions] at hj
    · simp only [handle, h] at hj
      by_cases ho : env.owns s.user_id tid
      · cases hg : env.get_messages tid with
        | error err =>
            simp [ho, hg, HandleOutcome.actions] at hj
            exact Or.inr ⟨err, hj⟩
        | ok msgs =>
            simp [ho, hg, HandleOutcome.actions] at hj
            exact Or.inl ⟨.messages msgs, hj⟩
      · simp [ho, HandleOutcome.actions] at hj
        exact Or.inl ⟨.error "User does not own topic", hj⟩
    · simp [handle, h, HandleOutcome.actions] at hj
    · simp [handle, h, HandleOutcome.actions] at hj
      exact Or.inl ⟨.error r, hj⟩
  · intro k cstream hist j hj
    cases k with
    | none => simp [stuff, StuffResult.actions] at hj
    | some key =>
        cases cstream with
        | error e => simp [stuff, StuffResult.actions] at hj
        | ok events =>
            rw [stuff_actions key events hist] at hj
            rcases stuffLoop_sendText events "" 0 [] j hj with hin | hex
            · simp at hin
            · exact hex

/-- Witness for C8 at a concrete emission: the authorization-error frame the
handler sends on a not-owned ChangeTopic is a `Response` serialization. -/
theorem c8_witness :
    (∃ r, serializeResponse (.error "User does not own topic") = serializeResponse r)
    ∨ (∃ e, serializeResponse (.error "User does not own topic") =
        serializeDefaultError e) := by
  refine c8_outbound_frames_serde_tagged.2.1 envNoneOwned sampleState
    (.ok (.text (some ⟨"changeTopic", none, some 7⟩))) _ ?_
  show Action.sendText (serializeResponse (.error "User does not own topic")) ∈
    (HandleOutcome.ok sampleState
      [.sendText (serializeResponse (.error "User does not own topic"))] none).actions
  exact List.mem_singleton_self _

end ArguflowAiEditor

